import Mathlib

/-! Shallow embedding of `processar_assistencia` from `src/app.py`: the Webex
attendance consolidation.  Timestamps are modelled as rational numbers of
minutes.  A `pandas` missing value (`NaN`) is `Campo.ausente`, a text value
that `pd.to_datetime` rejects is `Campo.invalido`, and a value parsing to the
timestamp `t` is `Campo.valido t`.  A Python exception escaping the function
and an explicit `return None, None` are both modelled as the result
`(none, none)`: in either case the Streamlit boundary reports an error and no
output table exists.  String formatting (`strftime`) is dropped: consolidated
times stay rational.  Python `round(x, 2)` is modelled as exact half-even
rounding on rationals, and `.lower()` as ASCII lowercasing (every uppercase
letter in the expected column names is ASCII). -/

namespace Assistencia

/-- Resultado textual de um campo de data/hora: `ausente` modela `NaN`,
`invalido` modela texto que `pd.to_datetime` rejeita, `valido t` modela um
valor que converte para o instante `t` (minutos). -/
inductive Campo where
  | ausente : Campo
  | invalido : Campo
  | valido : ℚ → Campo
deriving DecidableEq

/-- Uma linha bruta do CSV, com os treze campos esperados (`app.py` linhas
67-81).  O e-mail vale `none` quando `NaN`. -/
structure Linha where
  nomeReuniao : String
  dataInicio : Campo
  dataTermino : Campo
  nomeExibicao : String
  nome : String
  sobrenome : String
  funcao : String
  email : Option String
  horaEntrada : Campo
  horaSaida : Campo
  duracaoPresenca : ℚ
  tipoConexao : String
  nomeSessao : String
deriving DecidableEq

/-- O DataFrame de entrada: a lista dos nomes de coluna realmente presentes
no arquivo e as linhas.  Os valores das linhas sao indexados semanticamente;
`colunas` decide quais acessos por nome exato levantam `KeyError`. -/
structure Df where
  colunas : List String
  linhas : List Linha
deriving DecidableEq

/-- Uma linha retida e convertida (`pd.to_datetime` bem-sucedido): entrada e
saida sao instantes; os campos de data da reuniao podem ser `none` (`NaT`,
vindos de `NaN`). -/
structure LinhaP where
  nome : String
  sobrenome : String
  nomeExibicao : String
  email : String
  entrada : ℚ
  saida : ℚ
  inicio : Option ℚ
  termino : Option ℚ
  duracaoPresenca : ℚ
deriving DecidableEq

/-- Registro consolidado de um aluno (dicionario montado em `app.py` linhas
172-182). -/
structure Registro where
  nome : String
  email : String
  entradaConsolidada : ℚ
  saidaConsolidada : ℚ
  tempoTotalMin : ℚ
  porcentagemTempo : ℚ
  tramosParticipados : ℕ
  porcentagemTramos : ℚ
  status : String
deriving DecidableEq

/-- Resumo devolvido junto com a tabela (`app.py` linhas 189-194). -/
structure Resumo where
  totalRegistrosProcessados : ℕ
  registrosIgnorados : ℕ
  presentes : ℕ
  ausentes : ℕ
deriving DecidableEq

/-- As treze colunas esperadas (`colunas_esperadas`, `app.py` linhas 67-81;
o dicionario tem chave igual ao valor). -/
def colunasEsperadas : List String :=
  ["Nome da reunião", "Data de início da reunião", "Data de término da reunião",
   "Nome de exibição", "Nome", "Sobrenome", "Função", "E-mail do convidado",
   "Hora da entrada", "Hora da saída", "Duração da presença", "Tipo de conexão",
   "Nome da sessão"]

/-- Modelo de `str.lower()` (ASCII; as maiusculas dos nomes esperados sao
todas ASCII). -/
def pylower (s : String) : String :=
  String.mk (s.data.map Char.toLower)

/-- Modelo de `str.strip()`: remove espacos em branco nas duas pontas. -/
def pystrip (s : String) : String :=
  String.mk (((s.data.dropWhile Char.isWhitespace).reverse.dropWhile
    Char.isWhitespace).reverse)

/-- Colunas esperadas que nao aparecem (apos `strip().lower()`) entre as
colunas do arquivo (`app.py` linhas 84-89). -/
def colunasFaltantes (cols : List String) : List String :=
  colunasEsperadas.filter fun e =>
    decide (¬ pylower e ∈ cols.map fun c => pylower (pystrip c))

/-- Renomeacao de colunas (`app.py` linha 97):
`colunas_esperadas.get(c.lower(), c)`.  Como toda chave do dicionario contem
uma maiuscula e a busca usa `c.lower()`, a busca nunca encontra nada e a
renomeacao devolve `c` inalterado. -/
def renomeia (c : String) : String :=
  (List.lookup (pylower c) (colunasEsperadas.map fun e => (e, e))).getD c

/-- Linha que sobrevive ao `dropna(subset=[e-mail, entrada, saida])`
(`app.py` linha 102). -/
def retida (l : Linha) : Bool :=
  l.email.isSome && !(l.horaEntrada == Campo.ausente)
    && !(l.horaSaida == Campo.ausente)

/-- Linhas retidas do DataFrame. -/
def retidas (df : Df) : List Linha :=
  df.linhas.filter retida

/-- Conversao de um campo de hora de conexao: linhas retidas nunca tem
esses campos `ausente`, e `invalido` levanta excecao. -/
def parseHora : Campo → Option ℚ
  | Campo.valido t => some t
  | _ => none

/-- Conversao de um campo de data de reuniao: `ausente` vira `NaT`
(`some none`), `invalido` levanta excecao (`none`). -/
def parseData : Campo → Option (Option ℚ)
  | Campo.ausente => some none
  | Campo.invalido => none
  | Campo.valido t => some (some t)

/-- Conversao `pd.to_datetime` de uma linha retida: falha (excecao) quando
algum dos quatro campos nao converte. -/
def parseLinha (l : Linha) : Option LinhaP :=
  match l.email with
  | none => none
  | some em =>
    match parseHora l.horaEntrada with
    | none => none
    | some e =>
      match parseHora l.horaSaida with
      | none => none
      | some s =>
        match parseData l.dataInicio with
        | none => none
        | some di =>
          match parseData l.dataTermino with
          | none => none
          | some dt =>
            some ⟨l.nome, l.sobrenome, l.nomeExibicao, em, e, s, di, dt,
              l.duracaoPresenca⟩

/-- Conversao de todas as linhas retidas; qualquer falha aborta o lote
inteiro (`app.py` linhas 110-118). -/
def parseLinhas : List Linha → Option (List LinhaP)
  | [] => some []
  | l :: ls =>
    match parseLinha l, parseLinhas ls with
    | some p, some ps => some (p :: ps)
    | _, _ => none

/-- Duracao total da aula em minutos: termino menos inicio da reuniao na
primeira linha retida (`app.py` linha 122).  `none` modela a lista vazia
(IndexError capturado) e campos `NaT`, que nunca produzem saida. -/
def duracaoAula : List LinhaP → Option ℚ
  | [] => none
  | p :: _ =>
    match p.inicio, p.termino with
    | some i, some t => some (t - i)
    | _, _ => none

/-- Hora de inicio da aula: campo de inicio da primeira linha retida
(`app.py` linha 149); o valor padrao nunca e usado nos ramos alcancaveis. -/
def inicioAula : List LinhaP → ℚ
  | [] => 0
  | p :: _ => p.inicio.getD 0

/-- Modelo de `int(q)` do Python: truncamento em direcao a zero. -/
def pyint (q : ℚ) : ℤ :=
  if q < 0 then ⌈q⌉ else ⌊q⌋

/-- Modelo de `a % b` do Python para `b > 0`. -/
def pymod (a b : ℚ) : ℚ :=
  a - b * ⌊a / b⌋

/-- Numero de tramos de 60 minutos (`app.py` linhas 145-147):
`int(d/60)`, mais um quando `d % 60 > 0`. -/
def totalTramos (d : ℚ) : ℤ :=
  pyint (d / 60) + (if 0 < pymod d 60 then 1 else 0)

/-- Teste de sobreposicao de alguma conexao do grupo com o tramo
`[ini, fim)` (`app.py` linhas 155-159): entrada < fim e saida > ini. -/
def participouDoTramo (g : List LinhaP) (ini fim : ℚ) : Bool :=
  g.any fun r => decide (r.entrada < fim ∧ r.saida > ini)

/-- Contagem dos tramos com participacao (`app.py` linhas 151-162);
o tramo `i` vai de `i0 + 60 i` a `i0 + 60 i + 60`. -/
def tramosParticipados (g : List LinhaP) (i0 d : ℚ) : ℕ :=
  (List.range (totalTramos d).toNat).countP fun i =>
    participouDoTramo g (i0 + (i : ℚ) * 60) (i0 + (i : ℚ) * 60 + 60)

/-- Porcentagem de tramos (`app.py` linha 164), com o guarda
`if total_tramos > 0 else 0`. -/
def porcentagemTramos (g : List LinhaP) (i0 d : ℚ) : ℚ :=
  if 0 < totalTramos d then
    (tramosParticipados g i0 d : ℚ) / ((totalTramos d : ℤ) : ℚ) * 100
  else 0

/-- Soma das duracoes de presenca informadas no grupo (`app.py` linha 140). -/
def tempoTotal (g : List LinhaP) : ℚ :=
  (g.map LinhaP.duracaoPresenca).sum

/-- Porcentagem de tempo (`app.py` linha 141). -/
def porcentagemTempo (t d : ℚ) : ℚ :=
  t / d * 100

/-- Status do aluno (`app.py` linha 165): Presente exige as duas porcentagens
maiores ou iguais a 80. -/
def statusDe (pt ptr : ℚ) : String :=
  if 80 ≤ pt ∧ 80 ≤ ptr then "Presente" else "Ausente"

/-- Minimo das entradas do grupo (`app.py` linha 138). -/
def minEntrada : List LinhaP → ℚ
  | [] => 0
  | p :: ps => ps.foldl (fun a r => min a r.entrada) p.entrada

/-- Maximo das saidas do grupo (`app.py` linha 139). -/
def maxSaida : List LinhaP → ℚ
  | [] => 0
  | p :: ps => ps.foldl (fun a r => max a r.saida) p.saida

/-- Arredondamento half-even para inteiro (modelo exato de `round` do
Python sobre racionais). -/
def rhe (q : ℚ) : ℤ :=
  if q - ⌊q⌋ < 1/2 then ⌊q⌋
  else if 1/2 < q - ⌊q⌋ then ⌊q⌋ + 1
  else if ⌊q⌋ % 2 = 0 then ⌊q⌋ else ⌊q⌋ + 1

/-- Modelo de `round(x, 2)`. -/
def round2 (q : ℚ) : ℚ :=
  ((rhe (q * 100) : ℤ) : ℚ) / 100

/-- Nome do aluno (`app.py` linhas 167-170): tenta `Nome + " " + Sobrenome`;
um `KeyError` (coluna com nome exato ausente) cai para `Nome de exibição`;
se esta tambem falta, a excecao escapa (`none`). -/
def nomeAluno (tN tE : Bool) (p : LinhaP) : Option String :=
  if tN then some (p.nome ++ " " ++ p.sobrenome)
  else if tE then some p.nomeExibicao
  else none

/-- Linhas de um grupo: as linhas retidas com o e-mail dado, na ordem
original (`df.groupby` preserva a ordem dentro de cada grupo). -/
def grupoDe (ls : List LinhaP) (e : String) : List LinhaP :=
  ls.filter fun l => decide (l.email = e)

/-- Consolidacao de um grupo (`app.py` linhas 137-182).  O grupo nunca e
vazio nos ramos alcancaveis; `none` modela a excecao do nome do aluno. -/
def consolidaGrupo (tN tE : Bool) (i0 d : ℚ) (e : String) :
    List LinhaP → Option Registro
  | [] => none
  | primeiro :: resto =>
    match nomeAluno tN tE primeiro with
    | none => none
    | some nm =>
      some ⟨nm, e, minEntrada (primeiro :: resto), maxSaida (primeiro :: resto),
        round2 (tempoTotal (primeiro :: resto)),
        round2 (porcentagemTempo (tempoTotal (primeiro :: resto)) d),
        tramosParticipados (primeiro :: resto) i0 d,
        round2 (porcentagemTramos (primeiro :: resto) i0 d),
        statusDe (porcentagemTempo (tempoTotal (primeiro :: resto)) d)
          (porcentagemTramos (primeiro :: resto) i0 d)⟩

/-- Ordem lexicografica por pontos de codigo sobre listas de caracteres
(a ordem de comparacao de strings do Python, usada pelo `groupby` do
pandas ao ordenar as chaves). -/
def charsLe : List Char → List Char → Bool
  | [], _ => true
  | _ :: _, [] => false
  | a :: as, b :: bs =>
    if a.toNat < b.toNat then true
    else if b.toNat < a.toNat then false
    else charsLe as bs

/-- Comparacao de strings por pontos de codigo. -/
def strLe (a b : String) : Bool :=
  charsLe a.data b.data

/-- A mesma comparacao como relacao proposicional. -/
def strLeP (a b : String) : Prop :=
  strLe a b = true

instance : DecidableRel strLeP :=
  fun a b => by unfold strLeP; infer_instance

/-- Chaves do `groupby` (`app.py` linha 132): os e-mails distintos das
linhas retidas, em ordem crescente (o `groupby` do pandas ordena as
chaves). -/
def chaves (ls : List LinhaP) : List String :=
  List.insertionSort strLeP (ls.map LinhaP.email).dedup

/-- Laco sobre os grupos (`app.py` linhas 137-182); uma excecao em qualquer
iteracao aborta tudo. -/
def montaTabela (tN tE : Bool) (i0 d : ℚ) (ls : List LinhaP) :
    List String → Option (List Registro)
  | [] => some []
  | e :: es =>
    match consolidaGrupo tN tE i0 d e (grupoDe ls e),
        montaTabela tN tE i0 d ls es with
    | some r, some rs => some (r :: rs)
    | _, _ => none

/-- A funcao principal `processar_assistencia` (`app.py` linhas 59-196).
Devolve `(tabela?, resumo?)`: `(none, none)` para qualquer erro ou excecao,
`(none, some resumo)` quando todas as linhas sao descartadas, e
`(some tabela, some resumo)` no sucesso.  Os guardas de pertencimento de
coluna modelam os `KeyError` dos acessos por nome exato (`dropna`,
`to_datetime`, soma das duracoes); como toda forma de aborto devolve
`(none, none)`, a posicao relativa desses guardas nao altera o resultado. -/
def processarAssistencia (df : Df) : Option (List Registro) × Option Resumo :=
  let total := df.linhas.length
  if colunasFaltantes df.colunas ≠ [] then (none, none) else
  let cols := df.colunas.map renomeia
  if ¬ ("E-mail do convidado" ∈ cols ∧ "Hora da entrada" ∈ cols ∧
      "Hora da saída" ∈ cols) then (none, none) else
  let rs := retidas df
  let ignorados := total - rs.length
  if rs.isEmpty then (none, some ⟨total, ignorados, 0, 0⟩) else
  if ¬ ("Data de início da reunião" ∈ cols ∧
      "Data de término da reunião" ∈ cols) then (none, none) else
  match parseLinhas rs with
  | none => (none, none)
  | some ls =>
    match duracaoAula ls with
    | none => (none, none)
    | some d =>
      if d ≤ 0 then (none, none) else
      if ¬ ("Duração da presença" ∈ cols) then (none, none) else
      let tN := decide ("Nome" ∈ cols) && decide ("Sobrenome" ∈ cols)
      let tE := decide ("Nome de exibição" ∈ cols)
      match montaTabela tN tE (inicioAula ls) d ls (chaves ls) with
      | none => (none, none)
      | some tab =>
        (some tab, some ⟨total, ignorados,
          tab.countP fun r => decide (r.status = "Presente"),
          tab.countP fun r => decide (r.status = "Ausente")⟩)

/-! Entradas concretas usadas nos testes dos enunciados.  Os instantes sao
minutos desde a meia-noite: 540 = 09:00, 570 = 09:30, 585 = 09:45,
600 = 10:00, 660 = 11:00. -/

/-- Linha base dos exemplos: reuniao 09:00 ate 10:00, conexao 09:00 ate
09:30, duracao informada 30 minutos. -/
def linhaBase : Linha :=
  ⟨"Aula", Campo.valido 540, Campo.valido 600, "Exib", "Ana", "Silva",
   "Convidado", some "a@x.com", Campo.valido 540, Campo.valido 570, 30,
   "Web", "S1"⟩

/-- Uma linha sem e-mail (descartada pelo filtro). -/
def df1 : Df := ⟨colunasEsperadas, [{ linhaBase with email := none }]⟩

/-- Cenario do enunciado C3: duas linhas de `a@x.com`, conexoes 09:00 ate
09:30 e 09:45 ate 10:00, duracoes informadas 30 e 15, reuniao de 60
minutos. -/
def df3 : Df := ⟨colunasEsperadas,
  [linhaBase,
   { linhaBase with
      horaEntrada := Campo.valido 585
      horaSaida := Campo.valido 600
      duracaoPresenca := 15 }]⟩

/-- As linhas de df3 convertidas. -/
def p1 : LinhaP := ⟨"Ana", "Silva", "Exib", "a@x.com", 540, 570, some 540, some 600, 30⟩

/-- Segunda linha de df3 convertida. -/
def p2 : LinhaP := ⟨"Ana", "Silva", "Exib", "a@x.com", 585, 600, some 540, some 600, 15⟩

/-- Registro consolidado esperado para df3. -/
def rec3 : Registro := ⟨"Ana Silva", "a@x.com", 540, 600, 45, 75, 1, 100, "Ausente"⟩

/-- Contra-exemplo de C2: reuniao de 120 minutos (09:00 ate 11:00), uma
conexao 09:00 ate 10:00 com duracao informada 102 minutos: porcentagem de
tempo 85, porcentagem de tramos 50. -/
def df2 : Df := ⟨colunasEsperadas,
  [{ linhaBase with
      dataTermino := Campo.valido 660
      horaSaida := Campo.valido 600
      duracaoPresenca := 102 }]⟩

/-- A linha de df2 convertida. -/
def p2a : LinhaP := ⟨"Ana", "Silva", "Exib", "a@x.com", 540, 600, some 540, some 660, 102⟩

/-- Registro consolidado esperado para df2. -/
def rec2 : Registro := ⟨"Ana Silva", "a@x.com", 540, 600, 102, 85, 1, 50, "Ausente"⟩

/-- Dois alunos, com os e-mails fora de ordem na entrada. -/
def df5 : Df := ⟨colunasEsperadas,
  [{ linhaBase with
      email := some "b@x.com"
      nome := "Bia"
      horaSaida := Campo.valido 600
      duracaoPresenca := 60 },
   linhaBase]⟩

/-- Linha de `b@x.com` de df5 convertida. -/
def pb : LinhaP := ⟨"Bia", "Silva", "Exib", "b@x.com", 540, 600, some 540, some 600, 60⟩

/-- Registro consolidado de `a@x.com` em df5. -/
def reca : Registro := ⟨"Ana Silva", "a@x.com", 540, 570, 30, 50, 1, 100, "Ausente"⟩

/-- Registro consolidado de `b@x.com` em df5. -/
def recb : Registro := ⟨"Bia Silva", "b@x.com", 540, 600, 60, 100, 1, 100, "Presente"⟩

/-- Linha retida cuja hora de entrada nao converte. -/
def linha6 : Linha := { linhaBase with horaEntrada := Campo.invalido }

/-- Uma linha retida com hora de entrada que nao converte. -/
def df6 : Df := ⟨colunasEsperadas, [linha6]⟩

/-- Reuniao com termino igual ao inicio (duracao derivada zero). -/
def df7 : Df := ⟨colunasEsperadas, [{ linhaBase with dataTermino := Campo.valido 540 }]⟩

/-- A linha de df7 convertida. -/
def p7 : LinhaP := ⟨"Ana", "Silva", "Exib", "a@x.com", 540, 570, some 540, some 540, 30⟩

/-- Colunas com a coluna `Nome` presente apenas como variante de caixa
`NOME`: passa na checagem (que ignora caixa) mas falha no acesso exato. -/
def colunas9 : List String :=
  colunasEsperadas.map fun c => if c = "Nome" then "NOME" else c

/-- DataFrame com a coluna `Nome` em caixa variante. -/
def df9 : Df := ⟨colunas9, [linhaBase]⟩

/-- Registro consolidado esperado para df9: o nome cai para o campo de
exibicao. -/
def rec9 : Registro := ⟨"Exib", "a@x.com", 540, 570, 30, 50, 1, 100, "Ausente"⟩

/-- DataFrame sem nenhuma variante da coluna `Nome`. -/
def df9b : Df := ⟨colunasEsperadas.filter fun c => decide (c ≠ "Nome"), [linhaBase]⟩

/-! Lemas auxiliares. -/

lemma charsLe_total (as : List Char) : ∀ bs, charsLe as bs = true ∨ charsLe bs as = true := by
  induction as with
  | nil => intro bs; left; rfl
  | cons a as ih =>
    intro bs
    cases bs with
    | nil => right; rfl
    | cons b bs =>
      rcases Nat.lt_trichotomy a.toNat b.toNat with h | h | h
      · left; simp [charsLe, h]
      · have h1 : ¬ a.toNat < b.toNat := by omega
        have h2 : ¬ b.toNat < a.toNat := by omega
        simpa [charsLe, h1, h2] using ih bs
      · right; simp [charsLe, h]

lemma charsLe_trans (as : List Char) :
    ∀ bs cs, charsLe as bs = true → charsLe bs cs = true → charsLe as cs = true := by
  induction as with
  | nil => intro bs cs _ _; rfl
  | cons a as ih =>
    intro bs cs hab hbc
    cases bs with
    | nil => simp [charsLe] at hab
    | cons b bs =>
      cases cs with
      | nil => simp [charsLe] at hbc
      | cons c cs =>
        simp only [charsLe] at hab hbc ⊢
        by_cases h1 : a.toNat < b.toNat
        · by_cases h2 : b.toNat < c.toNat
          · simp [show a.toNat < c.toNat by omega]
          · have h3 : ¬ c.toNat < b.toNat := by
              intro hc
              simp [show ¬ b.toNat < c.toNat by omega, hc] at hbc
            simp [show a.toNat < c.toNat by omega]
        · by_cases h2 : b.toNat < a.toNat
          · simp [h1, h2] at hab
          · by_cases h3 : b.toNat < c.toNat
            · simp [show a.toNat < c.toNat by omega]
            · by_cases h4 : c.toNat < b.toNat
              · simp [h3, h4] at hbc
              · have h5 : ¬ a.toNat < c.toNat := by omega
                have h6 : ¬ c.toNat < a.toNat := by omega
                simp only [if_neg h1, if_neg h2] at hab
                simp only [if_neg h3, if_neg h4] at hbc
                simp only [if_neg h5, if_neg h6]
                exact ih bs cs hab hbc

instance : IsTotal String strLeP :=
  ⟨fun a b => by
    unfold strLeP strLe
    rcases charsLe_total a.data b.data with h | h
    · exact Or.inl h
    · exact Or.inr h⟩

instance : IsTrans String strLeP :=
  ⟨fun a b c hab hbc => charsLe_trans a.data b.data c.data hab hbc⟩

lemma parseLinha_email {l : Linha} {p : LinhaP} (h : parseLinha l = some p) :
    p.email = l.email.getD "" := by
  cases hm : l.email with
  | none => simp [parseLinha, hm] at h
  | some em =>
    cases h1 : parseHora l.horaEntrada with
    | none => simp [parseLinha, hm, h1] at h
    | some e =>
      cases h2 : parseHora l.horaSaida with
      | none => simp [parseLinha, hm, h1, h2] at h
      | some s =>
        cases h3 : parseData l.dataInicio with
        | none => simp [parseLinha, hm, h1, h2, h3] at h
        | some di =>
          cases h4 : parseData l.dataTermino with
          | none => simp [parseLinha, hm, h1, h2, h3, h4] at h
          | some dt =>
            simp only [parseLinha, hm, h1, h2, h3, h4] at h
            injection h with h
            subst h
            simp [hm]

lemma parseLinhas_map_email :
    ∀ {rs : List Linha} {ls : List LinhaP}, parseLinhas rs = some ls →
      ls.map LinhaP.email = rs.map fun l => l.email.getD "" := by
  intro rs
  induction rs with
  | nil => intro ls h; simp [parseLinhas] at h; simp [← h]
  | cons r rs ih =>
    intro ls h
    unfold parseLinhas at h
    cases hp : parseLinha r with
    | none => rw [hp] at h; simp at h
    | some p =>
      rw [hp] at h
      cases hps : parseLinhas rs with
      | none => rw [hps] at h; simp at h
      | some ps =>
        rw [hps] at h
        injection h with h
        subst h
        simp [parseLinha_email hp, ih hps]

lemma parseLinha_none_of_field {l : Linha}
    (h : parseHora l.horaEntrada = none ∨ parseHora l.horaSaida = none ∨
      parseData l.dataInicio = none ∨ parseData l.dataTermino = none) :
    parseLinha l = none := by
  cases hm : l.email with
  | none => simp [parseLinha, hm]
  | some em =>
    rcases h with h | h | h | h
    · simp [parseLinha, hm, h]
    · cases h1 : parseHora l.horaEntrada <;>
        simp [parseLinha, hm, h1, h]
    · cases h1 : parseHora l.horaEntrada <;>
        cases h2 : parseHora l.horaSaida <;>
        simp [parseLinha, hm, h1, h2, h]
    · cases h1 : parseHora l.horaEntrada <;>
        cases h2 : parseHora l.horaSaida <;>
        cases h3 : parseData l.dataInicio <;>
        simp [parseLinha, hm, h1, h2, h3, h]

lemma parseLinha_none_of_bad {l : Linha}
    (h : l.horaEntrada = Campo.invalido ∨ l.horaSaida = Campo.invalido ∨
      l.dataInicio = Campo.invalido ∨ l.dataTermino = Campo.invalido) :
    parseLinha l = none := by
  apply parseLinha_none_of_field
  rcases h with h | h | h | h
  · exact Or.inl (by rw [h]; rfl)
  · exact Or.inr (Or.inl (by rw [h]; rfl))
  · exact Or.inr (Or.inr (Or.inl (by rw [h]; rfl)))
  · exact Or.inr (Or.inr (Or.inr (by rw [h]; rfl)))

lemma parseLinhas_none_of_mem {rs : List Linha} {l : Linha} (hm : l ∈ rs)
    (h : parseLinha l = none) : parseLinhas rs = none := by
  induction rs with
  | nil => cases hm
  | cons r rs ih =>
    unfold parseLinhas
    rcases List.mem_cons.mp hm with rfl | hm2
    · rw [h]
    · cases hp : parseLinha r
      · rfl
      · rw [ih hm2]

lemma consolidaGrupo_inv {tN tE : Bool} {i0 d : ℚ} {e : String} {g : List LinhaP}
    {r : Registro} (h : consolidaGrupo tN tE i0 d e g = some r) :
    r.email = e ∧
      r.status = statusDe (porcentagemTempo (tempoTotal g) d) (porcentagemTramos g i0 d) ∧
      ∃ p rest nm, g = p :: rest ∧ nomeAluno tN tE p = some nm ∧ r.nome = nm := by
  cases g with
  | nil => simp [consolidaGrupo] at h
  | cons p rest =>
    cases hn : nomeAluno tN tE p with
    | none => simp [consolidaGrupo, hn] at h
    | some nm =>
      simp only [consolidaGrupo, hn] at h
      injection h with h
      subst h
      exact ⟨rfl, rfl, p, rest, nm, rfl, hn, rfl⟩

lemma montaTabela_consolida {tN tE : Bool} {i0 d : ℚ} {ls : List LinhaP} :
    ∀ {es : List String} {rs : List Registro},
      montaTabela tN tE i0 d ls es = some rs →
      rs.map Registro.email = es ∧
        ∀ r ∈ rs, consolidaGrupo tN tE i0 d r.email (grupoDe ls r.email) = some r := by
  intro es
  induction es with
  | nil =>
    intro rs h
    unfold montaTabela at h
    injection h with h
    subst h
    simp
  | cons e es ih =>
    intro rs h
    unfold montaTabela at h
    cases hc : consolidaGrupo tN tE i0 d e (grupoDe ls e) with
    | none => rw [hc] at h; simp at h
    | some r =>
      rw [hc] at h
      cases hmt : montaTabela tN tE i0 d ls es with
      | none => rw [hmt] at h; simp at h
      | some rs2 =>
        rw [hmt] at h
        injection h with h
        subst h
        have hre : r.email = e := (consolidaGrupo_inv hc).1
        refine ⟨by simp [hre, (ih hmt).1], ?_⟩
        intro r2 hr2
        rcases List.mem_cons.mp hr2 with rfl | hr2
        · rw [hre]; exact hc
        · exact (ih hmt).2 r2 hr2

lemma totalTramos_pos {d : ℚ} (hd : 0 < d) : 0 < totalTramos d := by
  unfold totalTramos pyint
  have hd60 : (0:ℚ) < d / 60 := by positivity
  rw [if_neg (by linarith : ¬ d / 60 < 0)]
  by_cases h1 : 1 ≤ ⌊d / 60⌋
  · have : (0:ℤ) ≤ if 0 < pymod d 60 then 1 else 0 := by positivity
    omega
  · have h0 : ⌊d / 60⌋ = 0 := by
      have := Int.floor_nonneg.mpr (le_of_lt hd60)
      omega
    have hm : 0 < pymod d 60 := by
      unfold pymod
      rw [h0]
      push_cast
      linarith
    rw [h0, if_pos hm]
    omega

lemma processar_inv {df : Df} {tab : List Registro} {res : Option Resumo}
    (h : processarAssistencia df = (some tab, res)) :
    ∃ ls d, parseLinhas (retidas df) = some ls ∧ duracaoAula ls = some d ∧ 0 < d ∧
      montaTabela
        (decide ("Nome" ∈ df.colunas.map renomeia) &&
          decide ("Sobrenome" ∈ df.colunas.map renomeia))
        (decide ("Nome de exibição" ∈ df.colunas.map renomeia))
        (inicioAula ls) d ls (chaves ls) = some tab := by
  simp only [processarAssistencia] at h
  split at h
  · simp at h
  · split at h
    · simp at h
    · split at h
      · simp at h
      · split at h
        · simp at h
        · split at h
          · simp at h
          · next ls hls =>
            split at h
            · simp at h
            · next d hd =>
              split at h
              · simp at h
              · next hdpos =>
                split at h
                · simp at h
                · split at h
                  · simp at h
                  · next tab2 hmt =>
                    injection h with h1 h2
                    injection h1 with h1
                    subst h1
                    exact ⟨ls, d, hls, hd, by linarith [not_le.mp hdpos], hmt⟩

/-! Avaliacao dos exemplos concretos. -/

lemma nomeConcatAna : "Ana" ++ " " ++ "Silva" = "Ana Silva" := by decide

lemma nomeConcatBia : "Bia" ++ " " ++ "Silva" = "Bia Silva" := by decide

lemma range2 : List.range 2 = [0, 1] := by decide

lemma consol3 : consolidaGrupo true true 540 60 "a@x.com" [p1, p2] = some rec3 := by
  norm_num [consolidaGrupo, nomeAluno, tempoTotal, porcentagemTempo, porcentagemTramos,
    tramosParticipados, totalTramos, pyint, pymod, participouDoTramo, minEntrada, maxSaida,
    round2, rhe, statusDe, p1, p2, rec3, nomeConcatAna, List.range_succ, List.countP_cons]

lemma mont3 : montaTabela true true (inicioAula [p1, p2]) 60 [p1, p2] (chaves [p1, p2]) =
    some [rec3] := by
  rw [show chaves [p1, p2] = ["a@x.com"] from by decide,
    show inicioAula [p1, p2] = 540 from by decide]
  simp only [montaTabela]
  rw [show grupoDe [p1, p2] "a@x.com" = [p1, p2] from by decide, consol3]

lemma eval3 : processarAssistencia df3 = (some [rec3], some ⟨2, 0, 0, 1⟩) := by
  have hpar : parseLinhas (retidas df3) = some [p1, p2] := by decide
  have hd : duracaoAula [p1, p2] = some 60 := by norm_num [duracaoAula, p1]
  simp only [processarAssistencia]
  split
  next h => exact absurd h (by decide)
  next h =>
  split
  next h2 => exact absurd h2 (by decide)
  next h2 =>
  split
  next h3 => exact absurd h3 (by decide)
  next h3 =>
  split
  next h4 => exact absurd h4 (by decide)
  next h4 =>
  split
  next heq => rw [hpar] at heq; exact absurd heq (by simp)
  next ls heq =>
  rw [hpar] at heq
  injection heq with hls
  subst hls
  split
  next heq2 => rw [hd] at heq2; exact absurd heq2 (by simp)
  next d heq2 =>
  rw [hd] at heq2
  injection heq2 with hdd
  subst hdd
  split
  next h5 => exact absurd h5 (by norm_num)
  next h5 =>
  split
  next h6 => exact absurd h6 (by decide)
  next h6 =>
  rw [show (decide ("Nome" ∈ List.map renomeia df3.colunas) &&
        decide ("Sobrenome" ∈ List.map renomeia df3.colunas)) = true from by decide,
      show decide ("Nome de exibição" ∈ List.map renomeia df3.colunas) = true from by decide]
  split
  next heq3 => rw [mont3] at heq3; exact absurd heq3 (by simp)
  next tab heq3 =>
  rw [mont3] at heq3
  injection heq3 with htab
  subst htab
  decide

lemma totalTramos120 : totalTramos 120 = 2 := by
  norm_num [totalTramos, pyint, pymod]

lemma tramosP2a : tramosParticipados [p2a] 540 120 = 1 := by
  simp only [tramosParticipados, totalTramos120,
    show Int.toNat 2 = 2 from rfl, range2]
  norm_num [List.countP_cons, participouDoTramo, p2a]

lemma consol2 : consolidaGrupo true true 540 120 "a@x.com" [p2a] = some rec2 := by
  have hptr : porcentagemTramos [p2a] 540 120 = 50 := by
    simp only [porcentagemTramos, totalTramos120, tramosP2a]
    norm_num
  simp only [consolidaGrupo, nomeAluno, hptr, tramosP2a]
  norm_num [tempoTotal, porcentagemTempo, minEntrada, maxSaida, round2, rhe,
    statusDe, p2a, rec2, nomeConcatAna]

lemma mont2 : montaTabela true true (inicioAula [p2a]) 120 [p2a] (chaves [p2a]) =
    some [rec2] := by
  rw [show chaves [p2a] = ["a@x.com"] from by decide,
    show inicioAula [p2a] = 540 from by decide]
  simp only [montaTabela]
  rw [show grupoDe [p2a] "a@x.com" = [p2a] from by decide, consol2]

lemma eval2 : processarAssistencia df2 = (some [rec2], some ⟨1, 0, 0, 1⟩) := by
  have hpar : parseLinhas (retidas df2) = some [p2a] := by decide
  have hd : duracaoAula [p2a] = some 120 := by norm_num [duracaoAula, p2a]
  simp only [processarAssistencia]
  split
  next h => exact absurd h (by decide)
  next h =>
  split
  next h2 => exact absurd h2 (by decide)
  next h2 =>
  split
  next h3 => exact absurd h3 (by decide)
  next h3 =>
  split
  next h4 => exact absurd h4 (by decide)
  next h4 =>
  split
  next heq => rw [hpar] at heq; exact absurd heq (by simp)
  next ls heq =>
  rw [hpar] at heq
  injection heq with hls
  subst hls
  split
  next heq2 => rw [hd] at heq2; exact absurd heq2 (by simp)
  next d heq2 =>
  rw [hd] at heq2
  injection heq2 with hdd
  subst hdd
  split
  next h5 => exact absurd h5 (by norm_num)
  next h5 =>
  split
  next h6 => exact absurd h6 (by decide)
  next h6 =>
  rw [show (decide ("Nome" ∈ List.map renomeia df2.colunas) &&
        decide ("Sobrenome" ∈ List.map renomeia df2.colunas)) = true from by decide,
      show decide ("Nome de exibição" ∈ List.map renomeia df2.colunas) = true from by decide]
  split
  next heq3 => rw [mont2] at heq3; exact absurd heq3 (by simp)
  next tab heq3 =>
  rw [mont2] at heq3
  injection heq3 with htab
  subst htab
  decide

lemma consol5a : consolidaGrupo true true 540 60 "a@x.com" [p1] = some reca := by
  norm_num [consolidaGrupo, nomeAluno, tempoTotal, porcentagemTempo, porcentagemTramos,
    tramosParticipados, totalTramos, pyint, pymod, participouDoTramo, minEntrada, maxSaida,
    round2, rhe, statusDe, p1, reca, nomeConcatAna, List.range_succ, List.countP_cons]

lemma consol5b : consolidaGrupo true true 540 60 "b@x.com" [pb] = some recb := by
  norm_num [consolidaGrupo, nomeAluno, tempoTotal, porcentagemTempo, porcentagemTramos,
    tramosParticipados, totalTramos, pyint, pymod, participouDoTramo, minEntrada, maxSaida,
    round2, rhe, statusDe, pb, recb, nomeConcatBia, List.range_succ, List.countP_cons]

lemma mont5 : montaTabela true true (inicioAula [pb, p1]) 60 [pb, p1] (chaves [pb, p1]) =
    some [reca, recb] := by
  rw [show chaves [pb, p1] = ["a@x.com", "b@x.com"] from by decide,
    show inicioAula [pb, p1] = 540 from by decide]
  simp only [montaTabela]
  rw [show grupoDe [pb, p1] "a@x.com" = [p1] from by decide,
    show grupoDe [pb, p1] "b@x.com" = [pb] from by decide, consol5a, consol5b]

lemma eval5 : processarAssistencia df5 = (some [reca, recb], some ⟨2, 0, 1, 1⟩) := by
  have hpar : parseLinhas (retidas df5) = some [pb, p1] := by decide
  have hd : duracaoAula [pb, p1] = some 60 := by norm_num [duracaoAula, pb]
  simp only [processarAssistencia]
  split
  next h => exact absurd h (by decide)
  next h =>
  split
  next h2 => exact absurd h2 (by decide)
  next h2 =>
  split
  next h3 => exact absurd h3 (by decide)
  next h3 =>
  split
  next h4 => exact absurd h4 (by decide)
  next h4 =>
  split
  next heq => rw [hpar] at heq; exact absurd heq (by simp)
  next ls heq =>
  rw [hpar] at heq
  injection heq with hls
  subst hls
  split
  next heq2 => rw [hd] at heq2; exact absurd heq2 (by simp)
  next d heq2 =>
  rw [hd] at heq2
  injection heq2 with hdd
  subst hdd
  split
  next h5 => exact absurd h5 (by norm_num)
  next h5 =>
  split
  next h6 => exact absurd h6 (by decide)
  next h6 =>
  rw [show (decide ("Nome" ∈ List.map renomeia df5.colunas) &&
        decide ("Sobrenome" ∈ List.map renomeia df5.colunas)) = true from by decide,
      show decide ("Nome de exibição" ∈ List.map renomeia df5.colunas) = true from by decide]
  split
  next heq3 => rw [mont5] at heq3; exact absurd heq3 (by simp)
  next tab heq3 =>
  rw [mont5] at heq3
  injection heq3 with htab
  subst htab
  decide

lemma consol9 : consolidaGrupo false true 540 60 "a@x.com" [p1] = some rec9 := by
  norm_num [consolidaGrupo, nomeAluno, tempoTotal, porcentagemTempo, porcentagemTramos,
    tramosParticipados, totalTramos, pyint, pymod, participouDoTramo, minEntrada, maxSaida,
    round2, rhe, statusDe, p1, rec9, List.range_succ, List.countP_cons]

lemma mont9 : montaTabela false true (inicioAula [p1]) 60 [p1] (chaves [p1]) =
    some [rec9] := by
  rw [show chaves [p1] = ["a@x.com"] from by decide,
    show inicioAula [p1] = 540 from by decide]
  simp only [montaTabela]
  rw [show grupoDe [p1] "a@x.com" = [p1] from by decide, consol9]

lemma eval9 : processarAssistencia df9 = (some [rec9], some ⟨1, 0, 0, 1⟩) := by
  have hpar : parseLinhas (retidas df9) = some [p1] := by decide
  have hd : duracaoAula [p1] = some 60 := by norm_num [duracaoAula, p1]
  simp only [processarAssistencia]
  split
  next h => exact absurd h (by decide)
  next h =>
  split
  next h2 => exact absurd h2 (by decide)
  next h2 =>
  split
  next h3 => exact absurd h3 (by decide)
  next h3 =>
  split
  next h4 => exact absurd h4 (by decide)
  next h4 =>
  split
  next heq => rw [hpar] at heq; exact absurd heq (by simp)
  next ls heq =>
  rw [hpar] at heq
  injection heq with hls
  subst hls
  split
  next heq2 => rw [hd] at heq2; exact absurd heq2 (by simp)
  next d heq2 =>
  rw [hd] at heq2
  injection heq2 with hdd
  subst hdd
  split
  next h5 => exact absurd h5 (by norm_num)
  next h5 =>
  split
  next h6 => exact absurd h6 (by decide)
  next h6 =>
  rw [show (decide ("Nome" ∈ List.map renomeia df9.colunas) &&
        decide ("Sobrenome" ∈ List.map renomeia df9.colunas)) = false from by decide,
      show decide ("Nome de exibição" ∈ List.map renomeia df9.colunas) = true from by decide]
  split
  next heq3 => rw [mont9] at heq3; exact absurd heq3 (by simp)
  next tab heq3 =>
  rw [mont9] at heq3
  injection heq3 with htab
  subst htab
  decide

/-! Enunciados. -/

/-- Claim C1 (contra-exemplo): com uma unica linha sem e-mail, a funcao
devolve tabela nenhuma e um resumo cujo contador de ignorados vale 1 (o
numero de linhas descartadas), nao 0 como o enunciado afirma. -/
theorem claimC1_counterexample :
    processarAssistencia df1 = (none, some ⟨1, 1, 0, 0⟩) ∧
      (processarAssistencia df1).2 ≠ some ⟨1, 0, 0, 0⟩ ∧
      df1.linhas.length = 1 := by
  refine ⟨by decide, by decide, by decide⟩

/-- Claim C1 (emendado): se todas as linhas sao descartadas pelo filtro de
campos faltantes (e as colunas passam nas checagens), a consolidacao nao e
um erro: devolve tabela nenhuma e um resumo com presentes e ausentes zero,
total de linhas igual ao ingerido e ignorados igual ao numero de linhas
descartadas, que aqui e o proprio total. -/
theorem claimC1 (df : Df) (h1 : colunasFaltantes df.colunas = [])
    (h2 : "E-mail do convidado" ∈ df.colunas.map renomeia)
    (h3 : "Hora da entrada" ∈ df.colunas.map renomeia)
    (h4 : "Hora da saída" ∈ df.colunas.map renomeia)
    (h5 : retidas df = []) :
    processarAssistencia df =
      (none, some ⟨df.linhas.length, df.linhas.length, 0, 0⟩) := by
  simp [processarAssistencia, h1, h2, h3, h4, h5]

/-- Claim C1 (testemunha): a situacao emendada e realizavel em df1. -/
theorem claimC1_witness :
    colunasFaltantes df1.colunas = [] ∧ retidas df1 = [] ∧
      processarAssistencia df1 = (none, some ⟨1, 1, 0, 0⟩) :=
  ⟨by decide, by decide,
    claimC1 df1 (by decide) (by decide) (by decide) (by decide) (by decide)⟩

/-- Claim C2 (contra-exemplo): em df2 a porcentagem de tempo e 85, maior
ou igual a 80, mas o status e Ausente, porque a checagem de tramos e sempre
aplicada, sem flag de configuracao. -/
theorem claimC2_counterexample :
    processarAssistencia df2 = (some [rec2], some ⟨1, 0, 0, 1⟩) ∧
      80 ≤ porcentagemTempo (tempoTotal [p2a]) 120 ∧
      rec2.status = "Ausente" := by
  refine ⟨eval2, ?_, rfl⟩
  norm_num [porcentagemTempo, tempoTotal, p2a]

/-- Claim C2 (emendado): para todo grupo consolidado, o status e Presente
exatamente quando a porcentagem de tempo e a porcentagem de tramos sao
ambas maiores ou iguais a 80; a exigencia de cobertura de tramos e
incondicional no codigo. -/
theorem claimC2 (tN tE : Bool) (i0 d : ℚ) (e : String) (g : List LinhaP)
    (r : Registro) (h : consolidaGrupo tN tE i0 d e g = some r) :
    r.status = "Presente" ↔
      80 ≤ porcentagemTempo (tempoTotal g) d ∧ 80 ≤ porcentagemTramos g i0 d := by
  have hs := (consolidaGrupo_inv h).2.1
  rw [hs]
  unfold statusDe
  split
  next hcond => simp [hcond]
  next hcond =>
    constructor
    · intro habs; exact absurd habs (by decide)
    · intro hc; exact absurd hc hcond

/-- Claim C2 (testemunha): o criterio emendado, instanciado no grupo de
df2. -/
theorem claimC2_witness :
    consolidaGrupo true true 540 120 "a@x.com" [p2a] = some rec2 ∧
      (rec2.status = "Presente" ↔
        80 ≤ porcentagemTempo (tempoTotal [p2a]) 120 ∧
          80 ≤ porcentagemTramos [p2a] 540 120) :=
  ⟨consol2, claimC2 true true 540 120 "a@x.com" [p2a] rec2 consol2⟩

/-- Claim C3: no cenario de duas linhas de `a@x.com` (conexoes 09:00 ate
09:30 e 09:45 ate 10:00, duracoes informadas 30 e 15, reuniao de 60
minutos), sai um unico registro com entrada consolidada 540 (09:00), saida
600 (10:00), tempo total 45, porcentagem 75 e status Ausente. -/
theorem claimC3 :
    processarAssistencia df3 = (some [rec3], some ⟨2, 0, 0, 1⟩) :=
  eval3

/-- Claim C4: sempre que a consolidacao produz uma tabela, ha exatamente um
registro por e-mail distinto entre as linhas retidas, e os registros saem
ordenados pela chave de agrupamento (o e-mail). -/
theorem claimC4 (df : Df) (tab : List Registro) (res : Option Resumo)
    (h : processarAssistencia df = (some tab, res)) :
    tab.length = ((retidas df).map fun l => l.email.getD "").dedup.length ∧
      List.Sorted strLeP (tab.map Registro.email) ∧
      (tab.map Registro.email).Nodup := by
  obtain ⟨ls, d, hls, hd, hdpos, hmt⟩ := processar_inv h
  obtain ⟨hemails, -⟩ := montaTabela_consolida hmt
  have hperm : (chaves ls).Perm (ls.map LinhaP.email).dedup :=
    List.perm_insertionSort _ _
  have hmapeq : ls.map LinhaP.email = (retidas df).map fun l => l.email.getD "" :=
    parseLinhas_map_email hls
  refine ⟨?_, ?_, ?_⟩
  · rw [← hmapeq, ← hperm.length_eq, ← hemails, List.length_map]
  · rw [hemails]
    exact List.sorted_insertionSort strLeP _
  · rw [hemails]
    exact (List.perm_insertionSort strLeP _).nodup_iff.mpr (List.nodup_dedup _)

/-- Claim C4 (testemunha): em df5 saem dois registros, um por e-mail
distinto, ordenados. -/
theorem claimC4_witness :
    processarAssistencia df5 = (some [reca, recb], some ⟨2, 0, 1, 1⟩) ∧
      ([reca, recb].length =
        ((retidas df5).map fun l => l.email.getD "").dedup.length ∧
        List.Sorted strLeP ([reca, recb].map Registro.email) ∧
        ([reca, recb].map Registro.email).Nodup) :=
  ⟨eval5, claimC4 df5 [reca, recb] (some ⟨2, 0, 1, 1⟩) eval5⟩

/-- Status Presente em 48 de 60 minutos com cobertura de tramos 100. -/
lemma status4860 : statusDe (porcentagemTempo 48 60) 100 = "Presente" := by
  norm_num [statusDe, porcentagemTempo]

/-- Claim C5: com a duracao total fixa (positiva) e a porcentagem de tramos
fixa, aumentar o tempo presente nunca muda o status de Presente para
Ausente. -/
theorem claimC5 (t t2 d ptr : ℚ) (hd : 0 < d) (ht : t ≤ t2)
    (h : statusDe (porcentagemTempo t d) ptr = "Presente") :
    statusDe (porcentagemTempo t2 d) ptr = "Presente" := by
  unfold statusDe at h ⊢
  split at h
  next hcond =>
    obtain ⟨h80, hptr⟩ := hcond
    have hmono : porcentagemTempo t d ≤ porcentagemTempo t2 d := by
      unfold porcentagemTempo
      have h1 : t / d ≤ t2 / d := (div_le_div_iff_of_pos_right hd).mpr ht
      nlinarith
    rw [if_pos ⟨le_trans h80 hmono, hptr⟩]
  next hcond => exact absurd h (by decide)

/-- Claim C5 (testemunha): subir de 48 para 60 minutos presentes em 60
preserva o status Presente. -/
theorem claimC5_witness :
    (0:ℚ) < 60 ∧ (48:ℚ) ≤ 60 ∧
      statusDe (porcentagemTempo 48 60) 100 = "Presente" ∧
      statusDe (porcentagemTempo 60 60) 100 = "Presente" :=
  ⟨by norm_num, by norm_num, status4860,
    claimC5 48 60 60 100 (by norm_num) (by norm_num) status4860⟩

/-- Claim C6: se alguma linha retida tem um dos quatro campos de data/hora
que nao converte, a computacao inteira falha e nada e produzido, nem tabela
parcial nem resumo. -/
theorem claimC6 (df : Df) (l : Linha) (hm : l ∈ retidas df)
    (hbad : l.horaEntrada = Campo.invalido ∨ l.horaSaida = Campo.invalido ∨
      l.dataInicio = Campo.invalido ∨ l.dataTermino = Campo.invalido) :
    processarAssistencia df = (none, none) := by
  have hpn : parseLinhas (retidas df) = none :=
    parseLinhas_none_of_mem hm (parseLinha_none_of_bad hbad)
  simp only [processarAssistencia]
  split
  · rfl
  split
  · rfl
  split
  next hemp =>
    exfalso
    rw [List.isEmpty_iff] at hemp
    rw [hemp] at hm
    cases hm
  next hemp =>
  split
  · rfl
  split
  next heq => rfl
  next ls heq =>
  rw [hpn] at heq
  cases heq

/-- Claim C6 (testemunha): df6 tem uma linha retida com hora de entrada
invalida e a funcao devolve (none, none). -/
theorem claimC6_witness :
    linha6 ∈ retidas df6 ∧ linha6.horaEntrada = Campo.invalido ∧
      processarAssistencia df6 = (none, none) :=
  ⟨by decide, rfl, claimC6 df6 linha6 (by decide) (Or.inl rfl)⟩

/-- Claim C7: a duracao derivada e o termino menos o inicio da reuniao da
primeira linha retida; quando essa diferenca nao e positiva, a computacao
falha com erro de dados e nao ha tabela de saida. -/
theorem claimC7 (df : Df) (p : LinhaP) (rest : List LinhaP) (i0 t0 : ℚ)
    (hp : parseLinhas (retidas df) = some (p :: rest))
    (hi : p.inicio = some i0) (ht : p.termino = some t0)
    (hneg : t0 - i0 ≤ 0) :
    processarAssistencia df = (none, none) := by
  have hda : duracaoAula (p :: rest) = some (t0 - i0) := by
    simp [duracaoAula, hi, ht]
  simp only [processarAssistencia]
  split
  · rfl
  split
  · rfl
  split
  next hemp =>
    exfalso
    rw [List.isEmpty_iff] at hemp
    rw [hemp] at hp
    simp [parseLinhas] at hp
  next hemp =>
  split
  · rfl
  split
  next heq => rfl
  next ls heq =>
  rw [hp] at heq
  injection heq with hls
  subst hls
  split
  next heq2 => rfl
  next d heq2 =>
  rw [hda] at heq2
  injection heq2 with hdd
  subst hdd
  split
  next => rfl
  next hpos => exact absurd hneg hpos

/-- Claim C7 (testemunha): df7 tem reuniao com inicio igual ao termino e a
funcao devolve (none, none). -/
theorem claimC7_witness :
    parseLinhas (retidas df7) = some [p7] ∧ p7.inicio = some 540 ∧
      p7.termino = some 540 ∧ (540:ℚ) - 540 ≤ 0 ∧
      processarAssistencia df7 = (none, none) :=
  ⟨by decide, rfl, rfl, by norm_num,
    claimC7 df7 p7 [] 540 540 (by decide) rfl rfl (by norm_num)⟩

open Classical in
/-- Claim C8: para duracao positiva, o numero de tramos e o piso de d/60
mais um tramo extra quando d nao e multiplo de 60; um tramo conta como
coberto exatamente quando alguma conexao do grupo satisfaz
entrada < fim do tramo e saida > inicio do tramo; e a porcentagem de
tramos e cobertos dividido pelo total vezes 100 (o guarda do divisor zero
nunca dispara). -/
theorem claimC8 (d : ℚ) (hd : 0 < d) :
    totalTramos d = ⌊d / 60⌋ + (if ∃ k : ℤ, d = 60 * k then 0 else 1) ∧
      (∀ g i0 (i : ℕ), participouDoTramo g (i0 + (i : ℚ) * 60)
          (i0 + (i : ℚ) * 60 + 60) = true ↔
        ∃ r ∈ g, r.entrada < i0 + (i : ℚ) * 60 + 60 ∧
          r.saida > i0 + (i : ℚ) * 60) ∧
      (∀ g i0, porcentagemTramos g i0 d =
        (tramosParticipados g i0 d : ℚ) / ((totalTramos d : ℤ) : ℚ) * 100) := by
  refine ⟨?_, ?_, ?_⟩
  · unfold totalTramos pyint
    rw [if_neg (not_lt.mpr (by positivity))]
    congr 1
    by_cases hk : ∃ k : ℤ, d = 60 * k
    · obtain ⟨k, rfl⟩ := hk
      have hz : pymod (60 * (k : ℚ)) 60 = 0 := by
        unfold pymod
        rw [show (60 : ℚ) * (k : ℚ) / 60 = (k : ℚ) from by field_simp,
          Int.floor_intCast]
        ring
      rw [if_neg (show ¬ (0 : ℚ) < pymod (60 * (k : ℚ)) 60 from by
          rw [hz]; exact lt_irrefl 0),
        if_pos (show ∃ k2 : ℤ, (60 : ℚ) * (k : ℚ) = 60 * (k2 : ℚ) from ⟨k, rfl⟩)]
    · have hfl : (⌊d / 60⌋ : ℚ) ≤ d / 60 := Int.floor_le _
      have hnn : 0 ≤ pymod d 60 := by
        unfold pymod
        have h60 : 60 * ((⌊d / 60⌋ : ℚ)) ≤ 60 * (d / 60) := by linarith
        have hdd : 60 * (d / 60) = d := by field_simp
        linarith
      have hne : pymod d 60 ≠ 0 := by
        intro h0
        apply hk
        unfold pymod at h0
        exact ⟨⌊d / 60⌋, by linarith⟩
      rw [if_neg hk, if_pos (lt_of_le_of_ne hnn (Ne.symm hne))]
  · intro g i0 i
    unfold participouDoTramo
    simp [List.any_eq_true]
  · intro g i0
    unfold porcentagemTramos
    rw [if_pos (totalTramos_pos hd)]

/-- Claim C8 (testemunha): com 90 minutos de aula ha dois tramos, o piso de
90/60 mais o tramo parcial. -/
theorem claimC8_witness : (0:ℚ) < 90 ∧ totalTramos 90 = 2 := by
  refine ⟨by norm_num, ?_⟩
  rw [(claimC8 90 (by norm_num)).1]
  rw [if_neg ?_]
  · norm_num
  · rintro ⟨k, hk⟩
    have h1 : (180 : ℚ) = 120 * (k : ℚ) := by linarith
    have h2 : (180 : ℤ) = 120 * k := by exact_mod_cast h1
    omega

/-- Claim C9 (contra-exemplo): com a coluna `Nome` presente so como a
variante de caixa `NOME` (que passa na checagem, insensivel a caixa), o
nome do registro de saida cai para o campo de exibicao, embora a linha
tenha nome `Ana` e sobrenome `Silva`; o enunciado previa nome e sobrenome
concatenados. -/
theorem claimC9_counterexample :
    processarAssistencia df9 = (some [rec9], some ⟨1, 0, 0, 1⟩) ∧
      df9.linhas.map Linha.nome = ["Ana"] ∧
      df9.linhas.map Linha.sobrenome = ["Silva"] ∧
      rec9.nome = "Exib" ∧ rec9.nome ≠ "Ana" ++ " " ++ "Silva" :=
  ⟨eval9, by decide, by decide, rfl, by decide⟩

/-- Claim C9 (emendado): quando a tabela e produzida, o nome de cada
registro e nome mais espaco mais sobrenome da primeira linha do grupo se as
colunas `Nome` e `Sobrenome` existem com o nome exato esperado, e o campo
de exibicao caso contrario — o fallback dispara quando as colunas de nome
so existem como variantes de caixa ou espacamento; quando faltam de todo, a
checagem inicial aborta a computacao antes de qualquer registro. -/
theorem claimC9 (df : Df) (tab : List Registro) (res : Option Resumo)
    (ls : List LinhaP) (h : processarAssistencia df = (some tab, res))
    (hls : parseLinhas (retidas df) = some ls) :
    ∀ r ∈ tab, ∃ p rest, grupoDe ls r.email = p :: rest ∧
      r.nome = if "Nome" ∈ df.colunas.map renomeia ∧
          "Sobrenome" ∈ df.colunas.map renomeia
        then p.nome ++ " " ++ p.sobrenome else p.nomeExibicao := by
  obtain ⟨ls2, d, hls2, hd, hdpos, hmt⟩ := processar_inv h
  rw [hls] at hls2
  injection hls2 with hlseq
  subst hlseq
  obtain ⟨-, hcons⟩ := montaTabela_consolida hmt
  intro r hr
  obtain ⟨hre, hst, p, rest, nm, hg, hnm, hrnome⟩ :=
    consolidaGrupo_inv (hcons r hr)
  refine ⟨p, rest, hg, ?_⟩
  rw [hrnome]
  unfold nomeAluno at hnm
  by_cases hN : "Nome" ∈ df.colunas.map renomeia ∧
      "Sobrenome" ∈ df.colunas.map renomeia
  · rw [if_pos hN]
    rw [show (decide ("Nome" ∈ df.colunas.map renomeia) &&
        decide ("Sobrenome" ∈ df.colunas.map renomeia)) = true from
      by simp [hN.1, hN.2]] at hnm
    simp at hnm
    exact hnm.symm
  · rw [if_neg hN]
    rw [show (decide ("Nome" ∈ df.colunas.map renomeia) &&
        decide ("Sobrenome" ∈ df.colunas.map renomeia)) = false from
      by rcases not_and_or.mp hN with hx | hx <;> simp [hx]] at hnm
    by_cases hE : "Nome de exibição" ∈ df.colunas.map renomeia
    · simp [hE] at hnm
      exact hnm.symm
    · simp [hE] at hnm

/-- Claim C9 (testemunha): a regra emendada instanciada em df9, cuja coluna
`Nome` existe so como `NOME`. -/
theorem claimC9_witness :
    processarAssistencia df9 = (some [rec9], some ⟨1, 0, 0, 1⟩) ∧
      parseLinhas (retidas df9) = some [p1] ∧
      ∀ r ∈ [rec9], ∃ p rest, grupoDe [p1] r.email = p :: rest ∧
        r.nome = if "Nome" ∈ df9.colunas.map renomeia ∧
            "Sobrenome" ∈ df9.colunas.map renomeia
          then p.nome ++ " " ++ p.sobrenome else p.nomeExibicao :=
  ⟨eval9, by decide,
    claimC9 df9 [rec9] (some ⟨1, 0, 0, 1⟩) [p1] eval9 (by decide)⟩

/-- Claim C10: sempre que o laco por grupos e alcancado (a funcao produz
uma tabela), a duracao derivada e positiva e o numero de tramos e ao menos
um, logo nenhuma das duas divisoes divide por zero e o ramo de guarda do
divisor zero da porcentagem de tramos nunca e tomado. -/
theorem claimC10 (df : Df) (tab : List Registro) (res : Option Resumo)
    (h : processarAssistencia df = (some tab, res)) :
    ∃ ls d, parseLinhas (retidas df) = some ls ∧ duracaoAula ls = some d ∧
      0 < d ∧ 0 < totalTramos d ∧
      ∀ g i0, porcentagemTramos g i0 d =
        (tramosParticipados g i0 d : ℚ) / ((totalTramos d : ℤ) : ℚ) * 100 := by
  obtain ⟨ls, d, hls, hd, hdpos, -⟩ := processar_inv h
  exact ⟨ls, d, hls, hd, hdpos, totalTramos_pos hdpos, fun g i0 => by
    unfold porcentagemTramos
    rw [if_pos (totalTramos_pos hdpos)]⟩

/-- Claim C10 (testemunha): instanciado em df3, que produz tabela. -/
theorem claimC10_witness :
    processarAssistencia df3 = (some [rec3], some ⟨2, 0, 0, 1⟩) ∧
      ∃ ls d, parseLinhas (retidas df3) = some ls ∧ duracaoAula ls = some d ∧
        0 < d ∧ 0 < totalTramos d ∧
        ∀ g i0, porcentagemTramos g i0 d =
          (tramosParticipados g i0 d : ℚ) / ((totalTramos d : ℤ) : ℚ) * 100 :=
  ⟨eval3, claimC10 df3 [rec3] (some ⟨2, 0, 0, 1⟩) eval3⟩

end Assistencia
